import Mathlib

/-!
Verification of the portfolio-operations capital-flow ledger and
NAV-unitization engine.

Shallow embedding conventions:
* Python `Decimal` values are embedded as `ℚ`; every `Decimal.quantize`
  call in the source becomes an explicit rounding function here
  (`qUnits`, `qUsd`, `qNav` for ROUND_HALF_UP sites, `qUsdEven` for the
  one `.quantize(Decimal("0.01"))` call that uses the default
  ROUND_HALF_EVEN context rounding).  Context divisions (28 significant
  digits) are modelled as exact rational division.
* Django ORM state is an explicit `State` record of row lists; each
  service function is `State → ... → Except Err (State × row)`.  An
  `Except.error` result models a raised exception with the enclosing
  `transaction.atomic()` rolled back: the caller keeps the pre-call
  state, so "writes nothing on failure" is the `.error` shape itself.
* Calendar dates are `Date` triples ordered lexicographically, with the
  Gregorian month bounds of `performance/tasks.py::_month_bounds`.
* Exceptions are mapped to the spec's taxonomy (`Err` below) by raise
  site: `ValueError` sites for malformed input become `Err.validation`,
  unresolvable-NAV sites `Err.pricing`, missing period boundaries
  `Err.dataGap`, the redemption guard `Err.insufficientUnits`, a failed
  broker valuation `Err.broker`, and a database NOT NULL violation
  (possible because `MonthlySnapshot.benchmark_return` and
  `excess_return` are declared without `null=True` in
  `performance/models.py`) `Err.integrity`.
-/

/-- Calendar date (year, month, day). -/
structure Date where
  y : Int
  m : Nat
  d : Nat
deriving DecidableEq, Repr

/-- Lexicographic `≤` on dates, as Boolean (mirrors DateField ordering). -/
def Date.ble (a b : Date) : Bool :=
  (a.y < b.y) || (a.y == b.y && (a.m < b.m || (a.m == b.m && a.d ≤ b.d)))

/-- Lexicographic `<` on dates. -/
def Date.blt (a b : Date) : Bool :=
  (a.y < b.y) || (a.y == b.y && (a.m < b.m || (a.m == b.m && a.d < b.d)))

/-- Gregorian leap-year rule (Python `datetime.date` calendar). -/
def isLeap (y : Int) : Bool :=
  y % 4 == 0 && (y % 100 != 0 || y % 400 == 0)

/-- Number of days in a month, as computed by
`_month_bounds`' `date(year, month + 1, 1) - timedelta(days=1)`. -/
def daysInMonth (y : Int) (m : Nat) : Nat :=
  if m == 2 then (if isLeap y then 29 else 28)
  else if m == 4 || m == 6 || m == 9 || m == 11 then 30
  else 31

/-- First day of the month (`_month_bounds` start). -/
def monthStart (y : Int) (m : Nat) : Date := ⟨y, m, 1⟩

/-- Last day of the month (`_month_bounds` end). -/
def monthEnd (y : Int) (m : Nat) : Date := ⟨y, m, daysInMonth y m⟩

/-- Floor of a rational, written so that the kernel can evaluate it. -/
def rfloor (x : ℚ) : ℤ := x.num / (x.den : ℤ)

/-- Python `Decimal` ROUND_HALF_UP (round half away from zero) to an
integer. -/
def rhalfAway (x : ℚ) : ℤ :=
  if 0 ≤ x.num then rfloor (x + 1/2) else -(rfloor (-x + 1/2))

/-- Python `Decimal` ROUND_HALF_EVEN (default context rounding) to an
integer. -/
def rhalfEven (x : ℚ) : ℤ :=
  let f := rfloor x
  let t := 2 * (x - f) - 1
  if t.num < 0 then f
  else if 0 < t.num then f + 1
  else if f % 2 = 0 then f else f + 1

/-- `_q_units` of accounts/services/capital_flows.py:
quantize to 8 decimal places, ROUND_HALF_UP. -/
def qUnits (x : ℚ) : ℚ := (rhalfAway (x * 100000000) : ℚ) / 100000000

/-- `_q_usd` of accounts/services/capital_flows.py (same in
fees/services/fees.py and performance/services/nav.py):
quantize to 2 decimal places, ROUND_HALF_UP. -/
def qUsd (x : ℚ) : ℚ := (rhalfAway (x * 100) : ℚ) / 100

/-- `_q_nav` of performance/services/nav.py: quantize to 8 decimal
places, ROUND_HALF_UP. -/
def qNav (x : ℚ) : ℚ := (rhalfAway (x * 100000000) : ℚ) / 100000000

/-- The bare `.quantize(Decimal("0.01"))` in
performance/tasks.py (aum_eom): 2 decimal places, default
ROUND_HALF_EVEN. -/
def qUsdEven (x : ℚ) : ℚ := (rhalfEven (x * 100) : ℚ) / 100

/-- The error taxonomy of the specification (section 7), used as the
`Except` error type of the embedded services.  Raise sites of the
Python source are mapped to constructors as described in the header. -/
inductive Err where
  | validation
  | pricing
  | dataGap
  | insufficientUnits
  | broker
  | integrity
deriving DecidableEq, Repr

/-- Modelled from the spec: the `CapitalFlow` model class
(`accounts.models`) is not among the provided sources (only its admin,
service and import sites are), so its `TYPE_SUBSCRIPTION` constant is
taken from the spec data model, `flow_type {SUBSCRIPTION, REDEMPTION}`. -/
def TYPE_SUBSCRIPTION : String := "SUBSCRIPTION"

/-- Modelled from the spec: `CapitalFlow.TYPE_REDEMPTION`, see
`TYPE_SUBSCRIPTION`. -/
def TYPE_REDEMPTION : String := "REDEMPTION"

/-- `Fund.CUSTODIAN_ALPACA` of funds/models.py. -/
def CUSTODIAN_ALPACA : String := "ALPACA"

/-- `Fund.STATUS_ACTIVE` of funds/models.py. -/
def STATUS_ACTIVE : String := "ACTIVE"

/-- `FundExpense.TYPE_MGMT_FEE` of fees/models.py. -/
def TYPE_MGMT_FEE : String := "MGMT_FEE"

/-- A `funds.models.Fund` row (the fields the core services read). -/
structure Fund where
  id : Nat
  custodian : String
  status : String
deriving DecidableEq, Repr

/-- An `accounts.models.CapitalFlow` ledger row (fields written by
`apply_capital_flow`).  The model class itself is not among the
provided sources; the fields are those the service and admin read and
write, per the spec data model. -/
structure CapitalFlow where
  client : Nat
  fund : Nat
  flowType : String
  amount : ℚ
  navAtFlow : ℚ
  unitsDelta : ℚ
  flowDate : Date
  externalRef : String
deriving DecidableEq, Repr

/-- An `accounts.models.ClientCapitalAccount` position row. -/
structure Acct where
  client : Nat
  fund : Nat
  units : ℚ
  navPerUnit : ℚ
  lastValuationDate : Date
deriving DecidableEq, Repr

/-- A `performance.models.NAVSnapshot` row. -/
structure Snap where
  fund : Nat
  date : Date
  navPerUnit : ℚ
  totalUnits : ℚ
  aum : ℚ
  cashBalance : Option ℚ
deriving DecidableEq, Repr

/-- A `performance.models.MonthlySnapshot` row.  `benchmark_return` and
`excess_return` are declared in performance/models.py without
`null=True`; `benchmarkReturnNullable` below records that schema
fact. -/
structure MSnap where
  fund : Nat
  asOfMonth : Date
  navBom : ℚ
  navEom : ℚ
  aumEom : ℚ
  fundReturn : ℚ
  benchmarkSymbol : String
  benchmarkReturn : Option ℚ
  excessReturn : Option ℚ
  strategyVersion : String
  modelChange : Bool
deriving DecidableEq, Repr

/-- Whether the `benchmark_return` / `excess_return` columns admit SQL
NULL.  In performance/models.py both are `models.DecimalField(...)`
with no `null=True`, so the columns are NOT NULL. -/
def benchmarkReturnNullable : Bool := false

/-- A `fees.models.FundExpense` row. -/
structure Expense where
  fund : Nat
  expenseType : String
  asOfDate : Date
  amount : ℚ
  isPaid : Bool
deriving DecidableEq, Repr

/-- The broker valuation returned by
`AlpacaValuationService.get_account_valuation`
(services/brokers/alpaca_valuation_service.py). -/
structure BrokerValuation where
  equity : ℚ
  cash : ℚ
deriving DecidableEq, Repr

/-- The benchmark price series returned by
`YFinancePriceProvider.get_daily_close`
(services/market_data/price_provider.py).  The source stores closes as
binary floats; they are embedded as rationals, which is faithful for
every branch decision the core makes on them (length and sign). -/
structure PriceSeries where
  dates : List Date
  close : List ℚ
deriving DecidableEq, Repr

/-- The database state: one list of rows per table the core touches. -/
structure State where
  flows : List CapitalFlow
  accounts : List Acct
  snaps : List Snap
  monthly : List MSnap
  expenses : List Expense
deriving DecidableEq, Repr

/-- The keyword arguments of `apply_capital_flow`. -/
structure FlowRequest where
  client : Nat
  fund : Nat
  flowType : String
  flowDate : Date
  amount : ℚ
  externalRef : String
  pricingPolicy : String
  allowOverRedeem : Bool
deriving DecidableEq, Repr

/-- `CapitalFlow.objects.filter(fund=..., client=..., external_ref=...)
.first()`: the idempotency lookup of `apply_capital_flow`. -/
def findFlow (flows : List CapitalFlow) (fund client : Nat) (ref : String) :
    Option CapitalFlow :=
  flows.find? fun f => f.fund == fund && f.client == client && f.externalRef == ref

/-- `ClientCapitalAccount` lookup by (client, fund) (the
`select_for_update().get_or_create` read). -/
def findAcct (accounts : List Acct) (client fund : Nat) : Option Acct :=
  accounts.find? fun a => a.client == client && a.fund == fund

/-- Write back a (client, fund) position row: replace the existing row
for the pair (unique per pair by the schema), or insert it if absent
(`get_or_create` + `save`). -/
def setAcct : List Acct → Acct → List Acct
  | [], a => [a]
  | b :: bs, a =>
    if b.client == a.client && b.fund == a.fund then a :: bs
    else b :: setAcct bs a

/-- `NAVSnapshot.objects.filter(fund=..., date__lte=d)
.order_by("-date").first()`: the latest snapshot on or before `d`. -/
def navOnOrBefore (snaps : List Snap) (fund : Nat) (d : Date) : Option Snap :=
  (snaps.filter fun s => s.fund == fund && Date.ble s.date d).foldl
    (fun acc s =>
      match acc with
      | none => some s
      | some t => if Date.blt t.date s.date then some s else acc)
    none

/-- `NAVSnapshot.objects.filter(fund=..., date=d).first()`. -/
def findSnap (snaps : List Snap) (fund : Nat) (d : Date) : Option Snap :=
  snaps.find? fun s => s.fund == fund && s.date == d

/-- Upsert a NAV snapshot keyed by (fund, date)
(`NAVSnapshot.objects.update_or_create`). -/
def setSnap : List Snap → Snap → List Snap
  | [], s => [s]
  | t :: ts, s =>
    if t.fund == s.fund && t.date == s.date then s :: ts
    else t :: setSnap ts s

/-- Upsert a monthly snapshot keyed by (fund, as_of_month)
(`MonthlySnapshot.objects.update_or_create`). -/
def setMonthly : List MSnap → MSnap → List MSnap
  | [], m => [m]
  | t :: ts, m =>
    if t.fund == m.fund && t.asOfMonth == m.asOfMonth then m :: ts
    else t :: setMonthly ts m

/-- Upsert an expense keyed by (fund, expense_type, as_of_date)
(`FundExpense.objects.update_or_create`). -/
def setExpense : List Expense → Expense → List Expense
  | [], e => [e]
  | t :: ts, e =>
    if t.fund == e.fund && t.expenseType == e.expenseType &&
        t.asOfDate == e.asOfDate then e :: ts
    else t :: setExpense ts e

/-- Sum of `ClientCapitalAccount.units` over a fund
(`...filter(fund=fund).aggregate(s=Sum("units"))`, with a missing
aggregate coalesced to 0). -/
def fundTotalUnits (accounts : List Acct) (fund : Nat) : ℚ :=
  ((accounts.filter fun a => a.fund == fund).map Acct.units).sum

/-- Sum of `units_delta` over the CapitalFlow rows of one
(client, fund) pair. -/
def ledgerSum (flows : List CapitalFlow) (client fund : Nat) : ℚ :=
  ((flows.filter fun f => f.client == client && f.fund == fund).map
    CapitalFlow.unitsDelta).sum

/-- The units of the (client, fund) position row, 0 when the row is
absent. -/
def posUnits (s : State) (client fund : Nat) : ℚ :=
  match findAcct s.accounts client fund with
  | some a => a.units
  | none => 0

/-- `_get_nav_for_flow_date` of accounts/services/capital_flows.py.
The two "no NAVSnapshot" `ValueError`s are the spec's `PricingError`;
the invalid-policy `ValueError` is a `ValidationError`. -/
def getNavForFlowDate (snaps : List Snap) (fund : Nat) (flowDate : Date)
    (pricingPolicy : String) : Except Err Snap :=
  if pricingPolicy == "EXACT" then
    match findSnap snaps fund flowDate with
    | some nav => .ok nav
    | none => .error .pricing
  else if pricingPolicy == "PREV" then
    match navOnOrBefore snaps fund flowDate with
    | some nav => .ok nav
    | none => .error .pricing
  else .error .validation

/-- The tail of `apply_capital_flow` after the units delta is fixed:
lock or create the position row (`select_for_update().get_or_create`,
whose zero-unit default makes the current units `posUnits`), apply the
redemption guard, and atomically append the ledger row and update the
position. -/
def applyFinish (s : State) (r : FlowRequest) (amount : ℚ) (nav : Snap)
    (unitsDelta : ℚ) : Except Err (State × CapitalFlow) :=
  let currentUnits := posUnits s r.client r.fund
  if r.flowType == TYPE_REDEMPTION && !r.allowOverRedeem &&
      decide (currentUnits + unitsDelta < 0) then
    .error .insufficientUnits
  else
    let flow : CapitalFlow :=
      { client := r.client, fund := r.fund, flowType := r.flowType
        amount := amount, navAtFlow := nav.navPerUnit
        unitsDelta := unitsDelta, flowDate := r.flowDate
        externalRef := r.externalRef }
    let acct : Acct :=
      { client := r.client, fund := r.fund
        units := qUnits (currentUnits + unitsDelta)
        navPerUnit := nav.navPerUnit, lastValuationDate := nav.date }
    .ok ({ s with flows := s.flows ++ [flow]
                  accounts := setAcct s.accounts acct }, flow)

/-- The part of `apply_capital_flow`
(accounts/services/capital_flows.py) reached when the idempotency
lookup misses: resolve the NAV, convert the (already quantized) amount
to units, dispatch on flow type, and finish via `applyFinish`. -/
def applyCreate (s : State) (r : FlowRequest) (amount : ℚ) :
    Except Err (State × CapitalFlow) :=
  match getNavForFlowDate s.snaps r.fund r.flowDate r.pricingPolicy with
  | .error e => .error e
  | .ok nav =>
    if nav.navPerUnit ≤ 0 then .error .pricing
    else
      let units := qUnits (amount / nav.navPerUnit)
      if r.flowType == TYPE_SUBSCRIPTION then applyFinish s r amount nav units
      else if r.flowType == TYPE_REDEMPTION then
        applyFinish s r amount nav (-units)
      else .error .validation

/-- `apply_capital_flow` of accounts/services/capital_flows.py.  A
raised exception is an `Except.error`; since every write happens inside
`transaction.atomic()`, an error leaves the database exactly as the
caller passed it in, which the `Except` shape captures (no new state is
produced on error). -/
def applyCapitalFlow (s : State) (r : FlowRequest) :
    Except Err (State × CapitalFlow) :=
  if r.externalRef == "" then .error .validation
  else
    let amount := qUsd r.amount
    if amount ≤ 0 then .error .validation
    else
      match findFlow s.flows r.fund r.client r.externalRef with
      | some existing => .ok (s, existing)
      | none => applyCreate s r amount

/-- Sequential composition of `apply_capital_flow` calls:
`.ok` exactly when every call in the list succeeded. -/
def applyMany : State → List FlowRequest → Except Err State
  | s, [] => .ok s
  | s, r :: rs =>
    match applyCapitalFlow s r with
    | .error e => .error e
    | .ok (s₁, _) => applyMany s₁ rs

/-- `compute_and_save_navsnapshot` of performance/services/nav.py.  The
broker call is passed in as an `Except Unit BrokerValuation` (the spec's
Broker Valuation Adapter, which may raise `BrokerUnavailableError`).
The custodian, status and total-units `ValueError`s are the spec's
`ValidationError`s. -/
def computeAndSaveNavsnapshot (s : State) (fund : Fund) (asOf : Date)
    (val : Except Unit BrokerValuation) : Except Err (State × Snap) :=
  if fund.custodian != CUSTODIAN_ALPACA then .error .validation
  else if fund.status != STATUS_ACTIVE then .error .validation
  else
    let totalUnits := fundTotalUnits s.accounts fund.id
    if totalUnits ≤ 0 then .error .validation
    else
      match val with
      | .error _ => .error .broker
      | .ok v =>
        let aum := qUsd v.equity
        let navPerUnit := qNav (aum / totalUnits)
        let snap : Snap :=
          { fund := fund.id, date := asOf, navPerUnit := navPerUnit
            totalUnits := totalUnits, aum := aum
            cashBalance := some (qUsd v.cash) }
        .ok ({ s with snaps := setSnap s.snaps snap }, snap)

/-- The benchmark branch of `generate_monthly_snapshot_task`
(performance/tasks.py): the fetch result (or a raised exception,
`Except.error`) is passed in; a series shorter than 2 closes or with a
non-positive first close leaves both returns `None`.  The source
computes the benchmark return with binary floats; `benchRet` stands for
that computed value, and no claim depends on it. -/
def benchRet (close : List ℚ) : ℚ := close.getLastD 0 / close.headD 0 - 1

def benchmarkPair (fundReturn : ℚ) (bench : Except Unit PriceSeries) :
    Option ℚ × Option ℚ :=
  match bench with
  | .error _ => (none, none)
  | .ok ps =>
    if 2 ≤ ps.close.length && decide (0 < ps.close.headD 0) then
      (some (benchRet ps.close), some (fundReturn - benchRet ps.close))
    else (none, none)

/-- `generate_monthly_snapshot_task` of performance/tasks.py.  The
benchmark fetch is a parameter (see `benchmarkPair`); `strategyVersion`
is the optional argument and `settingsVersion` the configured
`STRATEGY_VERSION` fallback.  The final `update_or_create` violates the
NOT NULL constraint on `benchmark_return`/`excess_return` whenever the
benchmark pair is `None` (performance/models.py declares neither column
with `null=True`), which surfaces as `Err.integrity`. -/
def generateMonthlySnapshot (s : State) (fundId : Nat) (y : Int) (m : Nat)
    (benchmarkSymbol : String) (bench : Except Unit PriceSeries)
    (strategyVersion : Option String) (modelChange : Bool)
    (settingsVersion : String) : Except Err (State × MSnap) :=
  let periodStart := monthStart y m
  let periodEnd := monthEnd y m
  match navOnOrBefore s.snaps fundId periodStart,
      navOnOrBefore s.snaps fundId periodEnd with
  | some bomObj, some eomObj =>
    let navBom := bomObj.navPerUnit
    let navEom := eomObj.navPerUnit
    if navBom ≤ 0 then .error .validation
    else
      let fundReturn := navEom / navBom - 1
      let totalUnits := fundTotalUnits s.accounts fundId
      let aumEom := qUsdEven (navEom * totalUnits)
      let pair := benchmarkPair fundReturn bench
      let sv :=
        match strategyVersion with
        | some v => if v == "" then settingsVersion else v
        | none => settingsVersion
      if pair.1.isNone && !benchmarkReturnNullable then .error .integrity
      else
        let snap : MSnap :=
          { fund := fundId, asOfMonth := periodEnd, navBom := navBom
            navEom := navEom, aumEom := aumEom, fundReturn := fundReturn
            benchmarkSymbol := benchmarkSymbol, benchmarkReturn := pair.1
            excessReturn := pair.2, strategyVersion := sv
            modelChange := modelChange }
        .ok ({ s with monthly := setMonthly s.monthly snap }, snap)
  | _, _ => .error .dataGap

/-- A rational that is an integer multiple of the units quantum
`0.00000001` (the resolution of every stored units column). -/
def isMult8 (x : ℚ) : Prop := ∃ k : ℤ, x = (k : ℚ) / 100000000

/-- `accrue_management_fee_for_day` of fees/services/fees.py.  Missing
snapshot is the spec's `DataGapError`; negative AUM its
`ValidationError`.  Note the source never validates `annual_rate`. -/
def accrueManagementFeeForDay (s : State) (fund : Nat) (asOf : Date)
    (annualRate : ℚ) : Except Err (State × Expense) :=
  match findSnap s.snaps fund asOf with
  | none => .error .dataGap
  | some snap =>
    let aum := snap.aum
    if aum < 0 then .error .validation
    else
      let dailyFee := qUsd (aum * (annualRate / 365))
      let e : Expense :=
        { fund := fund, expenseType := TYPE_MGMT_FEE, asOfDate := asOf
          amount := dailyFee, isPaid := false }
      .ok ({ s with expenses := setExpense s.expenses e }, e)

/-! ### Concrete fixtures used by witnesses and counterexamples -/

def dJan1 : Date := ⟨2024, 1, 1⟩

def dJan31 : Date := ⟨2024, 1, 31⟩

/-- An ACTIVE Alpaca fund. -/
def fundA : Fund := ⟨1, "ALPACA", "ACTIVE"⟩

/-- Inception NAV snapshot: fund 1, 2024-01-01, nav_per_unit 1.00000000. -/
def snapOne : Snap := ⟨1, dJan1, 1, 0, 0, none⟩

/-- State holding only the inception NAV snapshot. -/
def baseState : State := ⟨[], [], [snapOne], [], []⟩

/-- Subscription of $1000.00 by client 7 into fund 1, ref "R1". -/
def subReq : FlowRequest := ⟨7, 1, TYPE_SUBSCRIPTION, dJan1, 1000, "R1", "PREV", false⟩

/-- The ledger row `apply_capital_flow` creates for `subReq` at NAV 1. -/
def flowR1 : CapitalFlow := ⟨7, 1, TYPE_SUBSCRIPTION, 1000, 1, 1000, dJan1, "R1"⟩

/-- The position row after `subReq`: 1000.00000000 units. -/
def acct1000 : Acct := ⟨7, 1, 1000, 1, dJan1⟩

/-- `baseState` after applying `subReq`. -/
def stateAfterSub : State := ⟨[flowR1], [acct1000], [snapOne], [], []⟩

/-- Redemption of $2000.00 against a 1000-unit position (over-redeems). -/
def redReqOver : FlowRequest := ⟨7, 1, TYPE_REDEMPTION, dJan1, 2000, "R2", "PREV", false⟩

/-- Redemption of $1000.00: empties the 1000-unit position exactly. -/
def redReqExact : FlowRequest := ⟨7, 1, TYPE_REDEMPTION, dJan1, 1000, "R2", "PREV", false⟩

/-- Month-end NAV snapshot of the section-8.7 scenario: nav 1.05000000. -/
def snapEom : Snap := ⟨1, dJan31, 21/20, 1000, 1050, none⟩

/-- The section-8.7 scenario state: $1000 subscribed at NAV 1.00 on
2024-01-01, month-end NAV 1.05 on 2024-01-31. -/
def scenState : State := ⟨[flowR1], [acct1000], [snapOne, snapEom], [], []⟩

/-- A usable 2-point benchmark price series for January 2024. -/
def benchPS : PriceSeries := ⟨[dJan1, dJan31], [100, 101]⟩

/-- The NAV 33.33333333 of the spec's rounding example. -/
def nav33 : ℚ := 3333333333/100000000

def snap33 : Snap := ⟨1, dJan1, nav33, 0, 0, none⟩

def state33 : State := ⟨[], [], [snap33], [], []⟩

/-- Subscription of $100.00 (the spec's rounding example). -/
def subReq100 : FlowRequest := ⟨7, 1, TYPE_SUBSCRIPTION, dJan1, 100, "R1", "PREV", false⟩

/-- NAV snapshot with AUM $100.00 for fee accrual. -/
def feeSnap : Snap := ⟨1, dJan1, 1, 100, 100, none⟩

def feeState : State := ⟨[], [], [feeSnap], [], []⟩

/-- NAV snapshot with negative AUM (for the amended fee claim). -/
def feeSnapNeg : Snap := ⟨1, dJan1, 1, 100, -1, none⟩

def feeStateNeg : State := ⟨[], [], [feeSnapNeg], [], []⟩

/-- A one-unit position in fund 1 (total outstanding units 1 > 0). -/
def acctOne : Acct := ⟨7, 1, 1, 1, dJan1⟩

def unitState : State := ⟨[], [acctOne], [], [], []⟩


/-! ### Arithmetic lemmas about the quantizers -/

theorem rfloor_eq (x : ℚ) : rfloor x = ⌊x⌋ := (Rat.floor_def).symm

theorem rhalfAway_intCast (k : ℤ) : rhalfAway (k : ℚ) = k := by
  unfold rhalfAway
  rw [rfloor_eq, rfloor_eq]
  have hhalf : ⌊(1/2 : ℚ)⌋ = 0 := by norm_num
  rcases le_or_lt 0 k with hk | hk
  · rw [if_pos]
    · rw [Int.floor_int_add, hhalf, add_zero]
    · simpa using hk
  · rw [if_neg]
    · have : -(k : ℚ) = ((-k : ℤ) : ℚ) := by push_cast; ring
      rw [this, Int.floor_int_add, hhalf, add_zero, neg_neg]
    · simp only [Rat.num_intCast, not_le]
      exact hk

theorem one_le_rhalfAway {x : ℚ} (h : 1/2 ≤ x) : 1 ≤ rhalfAway x := by
  have hx : 0 ≤ x := le_trans (by norm_num) h
  unfold rhalfAway
  rw [if_pos (Rat.num_nonneg.mpr hx), rfloor_eq, Int.le_floor]
  push_cast
  linarith

theorem isMult8_qUnits (x : ℚ) : isMult8 (qUnits x) := ⟨_, rfl⟩

theorem isMult8_zero : isMult8 0 := ⟨0, by norm_num⟩

theorem isMult8_add {x y : ℚ} (hx : isMult8 x) (hy : isMult8 y) :
    isMult8 (x + y) := by
  obtain ⟨k, rfl⟩ := hx
  obtain ⟨l, rfl⟩ := hy
  exact ⟨k + l, by push_cast; ring⟩

theorem isMult8_neg {x : ℚ} (hx : isMult8 x) : isMult8 (-x) := by
  obtain ⟨k, rfl⟩ := hx
  exact ⟨-k, by push_cast; ring⟩

theorem qUnits_eq_self {x : ℚ} (h : isMult8 x) : qUnits x = x := by
  obtain ⟨k, rfl⟩ := h
  unfold qUnits
  rw [div_mul_cancel₀ _ (by norm_num : (100000000 : ℚ) ≠ 0), rhalfAway_intCast]

/-! ### Lemmas about the row-list operations -/

theorem ledgerSum_append_single (flows : List CapitalFlow) (f : CapitalFlow)
    (c fd : Nat) :
    ledgerSum (flows ++ [f]) c fd =
      ledgerSum flows c fd +
        (if f.client = c ∧ f.fund = fd then f.unitsDelta else 0) := by
  unfold ledgerSum
  rw [List.filter_append, List.map_append, List.sum_append]
  simp only [List.filter_cons, List.filter_nil]
  by_cases h1 : f.client = c
  · by_cases h2 : f.fund = fd
    · simp [h1, h2]
    · simp [h1, h2]
  · simp [h1]

theorem isMult8_ledgerSum (flows : List CapitalFlow) (c fd : Nat)
    (h8 : ∀ g ∈ flows, g.client = c → g.fund = fd → isMult8 g.unitsDelta) :
    isMult8 (ledgerSum flows c fd) := by
  unfold ledgerSum
  induction flows with
  | nil => simpa using isMult8_zero
  | cons g gs ih =>
    rw [List.filter_cons]
    by_cases hg : (g.client == c && g.fund == fd) = true
    · simp only [hg, if_true, List.map_cons, List.sum_cons]
      have hm : isMult8 g.unitsDelta := by
        simp only [Bool.and_eq_true, beq_iff_eq] at hg
        exact h8 g (List.mem_cons_self g gs) hg.1 hg.2
      exact isMult8_add hm (ih fun g' hg' hc hf =>
        h8 g' (List.mem_cons_of_mem g hg') hc hf)
    · simp only [hg, if_false]
      exact ih fun g' hg' hc hf => h8 g' (List.mem_cons_of_mem g hg') hc hf


theorem findAcct_setAcct_self (accounts : List Acct) (a : Acct) :
    findAcct (setAcct accounts a) a.client a.fund = some a := by
  induction accounts with
  | nil => simp [setAcct, findAcct]
  | cons b bs ih =>
    unfold setAcct
    cases hb : (b.client == a.client && b.fund == a.fund) with
    | true =>
      simp only [if_pos hb]
      simp [findAcct]
    | false =>
      simp only [hb, Bool.false_eq_true, if_false]
      unfold findAcct at ih ⊢
      rw [List.find?_cons_of_neg _ (by simp [hb])]
      exact ih

theorem findAcct_setAcct_ne (accounts : List Acct) (a : Acct) (c fd : Nat)
    (h : ¬(c = a.client ∧ fd = a.fund)) :
    findAcct (setAcct accounts a) c fd = findAcct accounts c fd := by
  have hpa : (a.client == c && a.fund == fd) = false := by
    by_cases h1 : a.client = c
    · by_cases h2 : a.fund = fd
      · exact absurd ⟨h1.symm, h2.symm⟩ h
      · simp [h2]
    · simp [h1]
  induction accounts with
  | nil => simp [setAcct, findAcct, hpa]
  | cons b bs ih =>
    unfold setAcct findAcct
    unfold findAcct at ih
    cases hb : (b.client == a.client && b.fund == a.fund) with
    | true =>
      have hpb : (b.client == c && b.fund == fd) = false := by
        simp only [Bool.and_eq_true, beq_iff_eq] at hb
        rw [hb.1, hb.2]
        exact hpa
      rw [if_pos rfl, List.find?_cons, List.find?_cons]
      simp only [hpa, hpb]
    | false =>
      rw [if_neg (by simp), List.find?_cons, List.find?_cons]
      cases hpb : (b.client == c && b.fund == fd) with
      | true => simp only [hpb]
      | false =>
        simp only [hpb]
        exact ih

/-! ### Inversion lemmas for `applyCapitalFlow` -/

theorem applyFinish_ok_inv {s : State} {r : FlowRequest} {amount : ℚ}
    {nav : Snap} {delta : ℚ} {s' : State} {f : CapitalFlow}
    (h : applyFinish s r amount nav delta = .ok (s', f)) :
    f = { client := r.client, fund := r.fund, flowType := r.flowType
          amount := amount, navAtFlow := nav.navPerUnit, unitsDelta := delta
          flowDate := r.flowDate, externalRef := r.externalRef } ∧
    s' = { s with
           flows := s.flows ++ [f]
           accounts := setAcct s.accounts
             { client := r.client, fund := r.fund
               units := qUnits (posUnits s r.client r.fund + delta)
               navPerUnit := nav.navPerUnit
               lastValuationDate := nav.date } } := by
  unfold applyFinish at h
  by_cases hg : (r.flowType == TYPE_REDEMPTION && !r.allowOverRedeem &&
      decide (posUnits s r.client r.fund + delta < 0)) = true
  · rw [if_pos hg] at h
    exact absurd h (by simp)
  · rw [if_neg hg] at h
    simp only [Except.ok.injEq, Prod.mk.injEq] at h
    obtain ⟨hs, hf⟩ := h
    subst hf
    exact ⟨rfl, hs.symm⟩

theorem applyCreate_ok_inv {s : State} {r : FlowRequest} {amount : ℚ}
    {s' : State} {f : CapitalFlow}
    (h : applyCreate s r amount = .ok (s', f)) :
    ∃ nav, getNavForFlowDate s.snaps r.fund r.flowDate r.pricingPolicy
        = .ok nav ∧
      ¬nav.navPerUnit ≤ 0 ∧
      ((r.flowType = TYPE_SUBSCRIPTION ∧
          applyFinish s r amount nav (qUnits (amount / nav.navPerUnit))
            = .ok (s', f)) ∨
        (r.flowType ≠ TYPE_SUBSCRIPTION ∧ r.flowType = TYPE_REDEMPTION ∧
          applyFinish s r amount nav (-qUnits (amount / nav.navPerUnit))
            = .ok (s', f))) := by
  unfold applyCreate at h
  cases hnav : getNavForFlowDate s.snaps r.fund r.flowDate r.pricingPolicy with
  | error e =>
    rw [hnav] at h
    exact absurd h (by simp)
  | ok nav =>
    rw [hnav] at h
    dsimp only at h
    by_cases hn : nav.navPerUnit ≤ 0
    · rw [if_pos hn] at h
      exact absurd h (by simp)
    · rw [if_neg hn] at h
      refine ⟨nav, rfl, hn, ?_⟩
      by_cases hsub : (r.flowType == TYPE_SUBSCRIPTION) = true
      · rw [if_pos hsub] at h
        exact Or.inl ⟨by simpa using hsub, h⟩
      · rw [if_neg hsub] at h
        by_cases hred : (r.flowType == TYPE_REDEMPTION) = true
        · rw [if_pos hred] at h
          exact Or.inr ⟨by simpa using hsub, by simpa using hred, h⟩
        · rw [if_neg hred] at h
          exact absurd h (by simp)

theorem applyCapitalFlow_ok_inv {s : State} {r : FlowRequest} {s' : State}
    {f : CapitalFlow} (h : applyCapitalFlow s r = .ok (s', f)) :
    r.externalRef ≠ "" ∧ 0 < qUsd r.amount ∧
    ((findFlow s.flows r.fund r.client r.externalRef = some f ∧ s' = s) ∨
      (findFlow s.flows r.fund r.client r.externalRef = none ∧
        applyCreate s r (qUsd r.amount) = .ok (s', f))) := by
  unfold applyCapitalFlow at h
  by_cases he : (r.externalRef == "") = true
  · rw [if_pos he] at h
    exact absurd h (by simp)
  · rw [if_neg he] at h
    by_cases ha : qUsd r.amount ≤ 0
    · rw [if_pos ha] at h
      exact absurd h (by simp)
    · rw [if_neg ha] at h
      refine ⟨by simpa using he, not_le.mp ha, ?_⟩
      cases hff : findFlow s.flows r.fund r.client r.externalRef with
      | some g =>
        rw [hff] at h
        simp only [Except.ok.injEq, Prod.mk.injEq] at h
        refine Or.inl ⟨?_, h.1.symm⟩
        rw [h.2]
      | none =>
        rw [hff] at h
        exact Or.inr ⟨rfl, h⟩

theorem applyCapitalFlow_existing {s : State} {r : FlowRequest}
    {f : CapitalFlow} (he : r.externalRef ≠ "") (ha : 0 < qUsd r.amount)
    (hf : findFlow s.flows r.fund r.client r.externalRef = some f) :
    applyCapitalFlow s r = .ok (s, f) := by
  unfold applyCapitalFlow
  rw [if_neg (by simpa using he), if_neg (not_le.mpr ha), hf]

theorem findFlow_after_ok {s : State} {r : FlowRequest} {s' : State}
    {f : CapitalFlow} (h : applyCapitalFlow s r = .ok (s', f)) :
    findFlow s'.flows r.fund r.client r.externalRef = some f := by
  obtain ⟨he, ha, hcase⟩ := applyCapitalFlow_ok_inv h
  rcases hcase with ⟨hf, rfl⟩ | ⟨hnone, hcreate⟩
  · exact hf
  · obtain ⟨nav, hnav, hn, hdisp⟩ := applyCreate_ok_inv hcreate
    have key : ∃ delta,
        applyFinish s r (qUsd r.amount) nav delta = .ok (s', f) := by
      rcases hdisp with ⟨_, hfin⟩ | ⟨_, _, hfin⟩
      · exact ⟨_, hfin⟩
      · exact ⟨_, hfin⟩
    obtain ⟨delta, hfin⟩ := key
    obtain ⟨hf, hs⟩ := applyFinish_ok_inv hfin
    subst hs
    unfold findFlow at hnone ⊢
    rw [List.find?_append, hnone]
    rw [hf]
    simp [List.find?]

theorem findAcct_setAcct_pair (accounts : List Acct) (c fd : Nat)
    (u np : ℚ) (d : Date) :
    findAcct (setAcct accounts ⟨c, fd, u, np, d⟩) c fd
      = some ⟨c, fd, u, np, d⟩ :=
  findAcct_setAcct_self accounts ⟨c, fd, u, np, d⟩

theorem findAcct_setAcct_pair_ne (accounts : List Acct)
    (c fd c' fd' : Nat) (u np : ℚ) (d : Date) (h : ¬(c = c' ∧ fd = fd')) :
    findAcct (setAcct accounts ⟨c', fd', u, np, d⟩) c fd
      = findAcct accounts c fd :=
  findAcct_setAcct_ne accounts ⟨c', fd', u, np, d⟩ c fd h

/-- One successful `apply_capital_flow` call preserves, for a fixed
(client, fund) pair, both the 8-decimal-place shape of the pair's
ledger rows and the position-equals-ledger-sum invariant. -/
theorem conservation_step {s : State} {r : FlowRequest} {s' : State}
    {f : CapitalFlow} {c fd : Nat}
    (h : applyCapitalFlow s r = .ok (s', f))
    (h8 : ∀ g ∈ s.flows, g.client = c → g.fund = fd → isMult8 g.unitsDelta)
    (hinv : posUnits s c fd = ledgerSum s.flows c fd) :
    (∀ g ∈ s'.flows, g.client = c → g.fund = fd → isMult8 g.unitsDelta) ∧
      posUnits s' c fd = ledgerSum s'.flows c fd := by
  obtain ⟨he, ha, hcase⟩ := applyCapitalFlow_ok_inv h
  rcases hcase with ⟨hf, rfl⟩ | ⟨hnone, hcreate⟩
  · exact ⟨h8, hinv⟩
  obtain ⟨nav, hnav, hn, hdisp⟩ := applyCreate_ok_inv hcreate
  have key : ∃ delta, isMult8 delta ∧
      applyFinish s r (qUsd r.amount) nav delta = .ok (s', f) := by
    rcases hdisp with ⟨_, hfin⟩ | ⟨_, _, hfin⟩
    · exact ⟨_, isMult8_qUnits _, hfin⟩
    · exact ⟨_, isMult8_neg (isMult8_qUnits _), hfin⟩
  obtain ⟨delta, hdm, hfin⟩ := key
  obtain ⟨hf, hs⟩ := applyFinish_ok_inv hfin
  subst hs
  constructor
  · intro g hg hc hfd
    rcases List.mem_append.mp hg with hg | hg
    · exact h8 g hg hc hfd
    · have hgf : g = f := by simpa using hg
      subst hgf
      rw [hf]
      exact hdm
  · show posUnits _ c fd = ledgerSum (s.flows ++ [f]) c fd
    rw [ledgerSum_append_single]
    by_cases hpair : c = r.client ∧ fd = r.fund
    · obtain ⟨rfl, rfl⟩ := hpair
      have hpos : posUnits
          { s with flows := s.flows ++ [f]
                   accounts := setAcct s.accounts
                     { client := r.client, fund := r.fund
                       units := qUnits (posUnits s r.client r.fund + delta)
                       navPerUnit := nav.navPerUnit
                       lastValuationDate := nav.date } } r.client r.fund
          = qUnits (posUnits s r.client r.fund + delta) := by
        unfold posUnits
        rw [findAcct_setAcct_pair]
      rw [hpos, hinv]
      have hm8 : isMult8 (ledgerSum s.flows r.client r.fund) :=
        isMult8_ledgerSum s.flows r.client r.fund h8
      rw [qUnits_eq_self (isMult8_add hm8 hdm)]
      rw [if_pos (by rw [hf]; exact ⟨rfl, rfl⟩)]
      rw [hf]
    · have hpos : posUnits
          { s with flows := s.flows ++ [f]
                   accounts := setAcct s.accounts
                     { client := r.client, fund := r.fund
                       units := qUnits (posUnits s r.client r.fund + delta)
                       navPerUnit := nav.navPerUnit
                       lastValuationDate := nav.date } } c fd
          = posUnits s c fd := by
        unfold posUnits
        rw [findAcct_setAcct_pair_ne _ _ _ _ _ _ _ _ hpair]
      rw [hpos, hinv]
      rw [if_neg (by
        rw [hf]
        intro hx
        exact hpair ⟨hx.1.symm, hx.2.symm⟩)]
      rw [add_zero]

/-- Sequential version of `conservation_step` over `applyMany`. -/
theorem conservation_many {c fd : Nat} (rs : List FlowRequest) :
    ∀ s s' : State, applyMany s rs = .ok s' →
      (∀ g ∈ s.flows, g.client = c → g.fund = fd → isMult8 g.unitsDelta) →
      posUnits s c fd = ledgerSum s.flows c fd →
      (∀ g ∈ s'.flows, g.client = c → g.fund = fd → isMult8 g.unitsDelta) ∧
        posUnits s' c fd = ledgerSum s'.flows c fd := by
  induction rs with
  | nil =>
    intro s s' h h8 hinv
    unfold applyMany at h
    cases h
    exact ⟨h8, hinv⟩
  | cons r rs ih =>
    intro s s' h h8 hinv
    unfold applyMany at h
    cases happ : applyCapitalFlow s r with
    | error e =>
      rw [happ] at h
      simp at h
    | ok p =>
      obtain ⟨s₁, f⟩ := p
      rw [happ] at h
      dsimp only at h
      obtain ⟨h8₁, hinv₁⟩ := conservation_step happ h8 hinv
      exact ih s₁ s' h h8₁ hinv₁

/-! ### Forward evaluation lemmas for `applyCapitalFlow` -/

theorem applyCapitalFlow_fresh {s : State} {r : FlowRequest}
    (he : r.externalRef ≠ "") (ha : 0 < qUsd r.amount)
    (hnone : findFlow s.flows r.fund r.client r.externalRef = none) :
    applyCapitalFlow s r = applyCreate s r (qUsd r.amount) := by
  unfold applyCapitalFlow
  rw [if_neg (by simpa using he), if_neg (not_le.mpr ha), hnone]

theorem applyCreate_redemption {s : State} {r : FlowRequest} {nav : Snap}
    (amount : ℚ) (hred : r.flowType = TYPE_REDEMPTION)
    (hnav : getNavForFlowDate s.snaps r.fund r.flowDate r.pricingPolicy
      = .ok nav)
    (hpos : 0 < nav.navPerUnit) :
    applyCreate s r amount
      = applyFinish s r amount nav (-qUnits (amount / nav.navPerUnit)) := by
  unfold applyCreate
  rw [hnav]
  dsimp only
  rw [if_neg (not_le.mpr hpos), if_neg (by rw [hred]; decide),
    if_pos (by rw [hred]; decide)]

theorem applyFinish_guard {s : State} {r : FlowRequest} {amount : ℚ}
    {nav : Snap} {delta : ℚ} (hred : r.flowType = TYPE_REDEMPTION)
    (hov : r.allowOverRedeem = false)
    (hneg : posUnits s r.client r.fund + delta < 0) :
    applyFinish s r amount nav delta = .error .insufficientUnits := by
  unfold applyFinish
  rw [if_pos (by simp [hred, hov, hneg])]

theorem applyFinish_ok_of_nonneg {s : State} {r : FlowRequest} {amount : ℚ}
    {nav : Snap} {delta : ℚ}
    (h : ¬posUnits s r.client r.fund + delta < 0) :
    ∃ out, applyFinish s r amount nav delta = .ok out := by
  unfold applyFinish
  rw [if_neg (by simp [h])]
  exact ⟨_, rfl⟩

/-! ### The claims -/

/-- Claim C1: idempotency of capital-flow application.  If a
CapitalFlow row already exists for (fund, client, external_ref), then
`apply_capital_flow` (with its non-empty ref and positive quantized
amount checks passed) returns that row and the unchanged state — no new
ledger row and no position update.  Consequently a second call with the
same arguments returns the state and row of the first call unchanged,
and a call that created a row leaves exactly one row for its key. -/
theorem claim_C1_idempotency :
    (∀ (s : State) (r : FlowRequest) (f : CapitalFlow),
        r.externalRef ≠ "" → 0 < qUsd r.amount →
        findFlow s.flows r.fund r.client r.externalRef = some f →
        applyCapitalFlow s r = .ok (s, f)) ∧
    (∀ (s : State) (r : FlowRequest) (s₁ : State) (f₁ : CapitalFlow),
        applyCapitalFlow s r = .ok (s₁, f₁) →
        applyCapitalFlow s₁ r = .ok (s₁, f₁)) ∧
    (∀ (s : State) (r : FlowRequest) (s₁ : State) (f₁ : CapitalFlow),
        findFlow s.flows r.fund r.client r.externalRef = none →
        applyCapitalFlow s r = .ok (s₁, f₁) →
        (s₁.flows.filter fun g => g.fund == r.fund && g.client == r.client
            && g.externalRef == r.externalRef).length = 1) := by
  refine ⟨?_, ?_, ?_⟩
  · intro s r f he ha hf
    exact applyCapitalFlow_existing he ha hf
  · intro s r s₁ f₁ h
    obtain ⟨he, ha, _⟩ := applyCapitalFlow_ok_inv h
    exact applyCapitalFlow_existing he ha (findFlow_after_ok h)
  · intro s r s₁ f₁ hnone h
    obtain ⟨he, ha, hcase⟩ := applyCapitalFlow_ok_inv h
    rcases hcase with ⟨hf, _⟩ | ⟨_, hcreate⟩
    · rw [hnone] at hf
      cases hf
    · obtain ⟨nav, hnav, hn, hdisp⟩ := applyCreate_ok_inv hcreate
      have key : ∃ delta,
          applyFinish s r (qUsd r.amount) nav delta = .ok (s₁, f₁) := by
        rcases hdisp with ⟨_, hfin⟩ | ⟨_, _, hfin⟩
        · exact ⟨_, hfin⟩
        · exact ⟨_, hfin⟩
      obtain ⟨delta, hfin⟩ := key
      obtain ⟨hf, hs⟩ := applyFinish_ok_inv hfin
      subst hs
      show (List.filter _ (s.flows ++ [f₁])).length = 1
      rw [List.filter_append]
      unfold findFlow at hnone
      have h0 : s.flows.filter
          (fun g => g.fund == r.fund && g.client == r.client
            && g.externalRef == r.externalRef) = [] := by
        rw [List.filter_eq_nil_iff]
        intro a ha2 hpa
        exact List.find?_eq_none.mp hnone a ha2 hpa
      rw [h0, hf]
      simp [List.filter]

unseal Rat.add Rat.mul Rat.inv Rat.sub in
theorem claim_C1_idempotency_witness :
    applyCapitalFlow stateAfterSub subReq = .ok (stateAfterSub, flowR1) :=
  claim_C1_idempotency.1 stateAfterSub subReq flowR1 (by decide) (by decide)
    (by decide)

/-- Claim C2: unit conservation.  For a fixed (client, fund) pair,
starting from any state whose position equals the pair's ledger sum and
whose ledger rows carry 8-decimal-place deltas (the stored resolution
of `units_delta`), every sequence of successful `apply_capital_flow`
calls ends in a state where `ClientCapitalAccount.units` equals the sum
of `units_delta` over the pair's CapitalFlow rows. -/
theorem claim_C2_unit_conservation (c fd : Nat) (s s' : State)
    (rs : List FlowRequest)
    (h8 : ∀ g ∈ s.flows, g.client = c → g.fund = fd → isMult8 g.unitsDelta)
    (hinv : posUnits s c fd = ledgerSum s.flows c fd)
    (h : applyMany s rs = .ok s') :
    posUnits s' c fd = ledgerSum s'.flows c fd :=
  (conservation_many rs s s' h h8 hinv).2

unseal Rat.add Rat.mul Rat.inv Rat.sub in
theorem claim_C2_unit_conservation_witness :
    posUnits stateAfterSub 7 1 = ledgerSum stateAfterSub.flows 7 1 :=
  claim_C2_unit_conservation 7 1 baseState stateAfterSub [subReq]
    (by intro g hg hc hfd; simp [baseState] at hg) (by decide) (by rfl)

/-- Claim C3: redemption guard with atomicity.  For a fresh redemption
request with `allow_over_redeem = false` whose units delta (computed
from the quantized amount and the resolved NAV) would drive the
position negative, `apply_capital_flow` fails with the
insufficient-units error — and, the transaction aborting, returns no
new state, so no ledger row is added and the position is unchanged;
a redemption that empties the position exactly succeeds. -/
theorem claim_C3_redemption_guard :
    (∀ (s : State) (r : FlowRequest) (nav : Snap),
        r.flowType = TYPE_REDEMPTION → r.allowOverRedeem = false →
        r.externalRef ≠ "" → 0 < qUsd r.amount →
        findFlow s.flows r.fund r.client r.externalRef = none →
        getNavForFlowDate s.snaps r.fund r.flowDate r.pricingPolicy
          = .ok nav →
        0 < nav.navPerUnit →
        posUnits s r.client r.fund
            - qUnits (qUsd r.amount / nav.navPerUnit) < 0 →
        applyCapitalFlow s r = .error .insufficientUnits) ∧
    (∀ (s : State) (r : FlowRequest) (nav : Snap),
        r.flowType = TYPE_REDEMPTION → r.allowOverRedeem = false →
        r.externalRef ≠ "" → 0 < qUsd r.amount →
        findFlow s.flows r.fund r.client r.externalRef = none →
        getNavForFlowDate s.snaps r.fund r.flowDate r.pricingPolicy
          = .ok nav →
        0 < nav.navPerUnit →
        posUnits s r.client r.fund
            - qUnits (qUsd r.amount / nav.navPerUnit) = 0 →
        ∃ out, applyCapitalFlow s r = .ok out) := by
  constructor
  · intro s r nav hred hov he ha hnone hnav hpos hneg
    rw [applyCapitalFlow_fresh he ha hnone,
      applyCreate_redemption (qUsd r.amount) hred hnav hpos]
    exact applyFinish_guard hred hov (by rwa [← sub_eq_add_neg])
  · intro s r nav hred hov he ha hnone hnav hpos hzero
    rw [applyCapitalFlow_fresh he ha hnone,
      applyCreate_redemption (qUsd r.amount) hred hnav hpos]
    exact applyFinish_ok_of_nonneg
      (by rw [← sub_eq_add_neg, hzero]; exact lt_irrefl 0)

unseal Rat.add Rat.mul Rat.inv Rat.sub in
theorem claim_C3_redemption_guard_witness :
    applyCapitalFlow stateAfterSub redReqOver = .error .insufficientUnits ∧
    ∃ out, applyCapitalFlow stateAfterSub redReqExact = .ok out :=
  ⟨claim_C3_redemption_guard.1 stateAfterSub redReqOver snapOne (by decide)
      (by decide) (by decide) (by decide) (by decide) (by rfl) (by decide)
      (by decide),
    claim_C3_redemption_guard.2 stateAfterSub redReqExact snapOne (by decide)
      (by decide) (by decide) (by decide) (by decide) (by rfl) (by decide)
      (by decide)⟩

unseal Rat.add Rat.mul Rat.inv Rat.sub in
/-- Claim C4: monthly rollup result formula.  Whenever both NAV
boundaries resolve and nav_bom is positive (and the benchmark series is
usable, so that the NOT NULL benchmark columns do not abort the save —
see claim C5), `generate_monthly_snapshot` succeeds and stores
`fund_return = nav_eom / nav_bom - 1` and
`aum_eom = round(nav_eom * total_units, 2dp)`; in the section-8.7
scenario this gives fund_return 0.05 and aum_eom 1050.00. -/
theorem claim_C4_monthly_rollup :
    (∀ (s : State) (fundId : Nat) (y : Int) (m : Nat) (sym : String)
        (ps : PriceSeries) (sv : Option String) (mc : Bool)
        (settings : String) (bom eom : Snap),
        navOnOrBefore s.snaps fundId (monthStart y m) = some bom →
        navOnOrBefore s.snaps fundId (monthEnd y m) = some eom →
        0 < bom.navPerUnit →
        2 ≤ ps.close.length → 0 < ps.close.headD 0 →
        ∃ s' ms,
          generateMonthlySnapshot s fundId y m sym (.ok ps) sv mc settings
            = .ok (s', ms) ∧
          ms.fundReturn = eom.navPerUnit / bom.navPerUnit - 1 ∧
          ms.aumEom
            = qUsdEven (eom.navPerUnit * fundTotalUnits s.accounts fundId)) ∧
    (∃ s' ms,
        generateMonthlySnapshot scenState 1 2024 1 "SPY" (.ok benchPS) none
          false "v1" = .ok (s', ms) ∧
        ms.fundReturn = 1/20 ∧ ms.aumEom = 1050) := by
  have hgen : ∀ (s : State) (fundId : Nat) (y : Int) (m : Nat) (sym : String)
      (ps : PriceSeries) (sv : Option String) (mc : Bool)
      (settings : String) (bom eom : Snap),
      navOnOrBefore s.snaps fundId (monthStart y m) = some bom →
      navOnOrBefore s.snaps fundId (monthEnd y m) = some eom →
      0 < bom.navPerUnit →
      2 ≤ ps.close.length → 0 < ps.close.headD 0 →
      ∃ s' ms,
        generateMonthlySnapshot s fundId y m sym (.ok ps) sv mc settings
          = .ok (s', ms) ∧
        ms.fundReturn = eom.navPerUnit / bom.navPerUnit - 1 ∧
        ms.aumEom
          = qUsdEven (eom.navPerUnit * fundTotalUnits s.accounts fundId) := by
    intro s fundId y m sym ps sv mc settings bom eom hbom heom hpos hlen hhead
    unfold generateMonthlySnapshot
    dsimp only
    rw [hbom, heom]
    dsimp only
    rw [if_neg (not_le.mpr hpos)]
    have hbench : benchmarkPair (eom.navPerUnit / bom.navPerUnit - 1)
        (.ok ps) = (some (benchRet ps.close),
          some (eom.navPerUnit / bom.navPerUnit - 1 - benchRet ps.close)) := by
      unfold benchmarkPair
      dsimp only
      rw [if_pos (by
        rw [List.headD_eq_head?_getD] at hhead
        simp [hlen, hhead])]
    rw [hbench]
    rw [if_neg (by simp)]
    exact ⟨_, _, rfl, rfl, rfl⟩
  refine ⟨hgen, ?_⟩
  obtain ⟨s', ms, hrun, hfr, hau⟩ := hgen scenState 1 2024 1 "SPY" benchPS
    none false "v1" snapOne snapEom (by rfl) (by rfl) (by decide) (by decide)
    (by decide)
  refine ⟨s', ms, hrun, ?_, ?_⟩
  · rw [hfr]
    decide
  · rw [hau]
    decide

unseal Rat.add Rat.mul Rat.inv Rat.sub in
theorem claim_C4_monthly_rollup_witness :
    ∃ s' ms,
      generateMonthlySnapshot scenState 1 2024 1 "SPY" (.ok benchPS) none
        false "v1" = .ok (s', ms) ∧
      ms.fundReturn = snapEom.navPerUnit / snapOne.navPerUnit - 1 ∧
      ms.aumEom
        = qUsdEven (snapEom.navPerUnit
            * fundTotalUnits scenState.accounts 1) :=
  claim_C4_monthly_rollup.1 scenState 1 2024 1 "SPY" benchPS none false "v1"
    snapOne snapEom (by rfl) (by rfl) (by decide) (by decide) (by decide)

unseal Rat.add Rat.mul Rat.inv Rat.sub in
/-- Claim C5 (code-bug evidence): with both NAV boundaries present, a
benchmark fetch that returns an empty series — or raises — drives
`generate_monthly_snapshot` into storing NULL benchmark_return and
excess_return; performance/models.py declares both columns without
`null=True`, so the save violates NOT NULL and the task raises instead
of succeeding with None fields. -/
theorem claim_C5_benchmark_not_nullable :
    generateMonthlySnapshot scenState 1 2024 1 "SPY" (.ok ⟨[], []⟩) none
        false "v1" = .error .integrity ∧
    generateMonthlySnapshot scenState 1 2024 1 "SPY" (.error ()) none
        false "v1" = .error .integrity :=
  ⟨by rfl, by rfl⟩

/-- Claim C6: NAV computation precondition.  For any fund whose total
outstanding units are ≤ 0, `compute_and_save_navsnapshot` fails with a
ValidationError — for every possible broker valuation outcome — and,
failing before the write, leaves the NAV snapshot store unchanged. -/
theorem claim_C6_nav_precondition (s : State) (fund : Fund) (asOf : Date)
    (val : Except Unit BrokerValuation)
    (h : fundTotalUnits s.accounts fund.id ≤ 0) :
    computeAndSaveNavsnapshot s fund asOf val = .error .validation := by
  unfold computeAndSaveNavsnapshot
  by_cases hc : (fund.custodian != CUSTODIAN_ALPACA) = true
  · rw [if_pos hc]
  · rw [if_neg hc]
    by_cases hst : (fund.status != STATUS_ACTIVE) = true
    · rw [if_pos hst]
    · rw [if_neg hst]
      rw [if_pos h]

unseal Rat.add Rat.mul Rat.inv Rat.sub in
theorem claim_C6_nav_precondition_witness :
    computeAndSaveNavsnapshot baseState fundA dJan1 (.ok ⟨0, 0⟩)
      = .error .validation :=
  claim_C6_nav_precondition baseState fundA dJan1 (.ok ⟨0, 0⟩) (by decide)

unseal Rat.add Rat.mul Rat.inv Rat.sub in
/-- Claim C7, counterexample: `accrue_management_fee_for_day` does not
validate `annual_rate`.  With a NAVSnapshot of AUM $100.00 present and
annual_rate = 0 (≤ 0, which the claim says must raise a
ValidationError), the service succeeds and upserts a $0.00 expense. -/
theorem claim_C7_cex :
    accrueManagementFeeForDay feeState 1 dJan1 0
      = .ok (⟨[], [], [feeSnap], [],
          [⟨1, TYPE_MGMT_FEE, dJan1, 0, false⟩]⟩,
        ⟨1, TYPE_MGMT_FEE, dJan1, 0, false⟩) := by
  rfl

/-- Claim C7 as amended: with a NAVSnapshot present for (fund, as_of),
`accrue_management_fee_for_day` fails with ValidationError whenever the
snapshot's AUM < 0 (writing no FundExpense row); `annual_rate` is not
validated by the service. -/
theorem claim_C7_fee_validation (s : State) (fund : Nat) (asOf : Date)
    (annualRate : ℚ) (snap : Snap)
    (hfind : findSnap s.snaps fund asOf = some snap)
    (haum : snap.aum < 0) :
    accrueManagementFeeForDay s fund asOf annualRate
      = .error .validation := by
  unfold accrueManagementFeeForDay
  rw [hfind]
  dsimp only
  rw [if_pos haum]

unseal Rat.add Rat.mul Rat.inv Rat.sub in
theorem claim_C7_fee_validation_witness :
    accrueManagementFeeForDay feeStateNeg 1 dJan1 (2/100)
      = .error .validation :=
  claim_C7_fee_validation feeStateNeg 1 dJan1 (2/100) feeSnapNeg (by rfl)
    (by decide)

unseal Rat.add Rat.mul Rat.inv Rat.sub in
/-- Claim C8, counterexample: for amount $100.00 and
nav_per_unit 33.33333333 the units `apply_capital_flow` computes are
3.00000000 — the exact quotient is 3.0000000003, which rounds down at 8
decimal places — not the 3.00000090 the claim states. -/
theorem claim_C8_cex :
    ((applyCapitalFlow state33 subReq100).toOption.map
        fun p => p.2.unitsDelta) = some 3 ∧
    (3 : ℚ) ≠ 300000090/100000000 :=
  ⟨by rfl, by decide⟩

unseal Rat.add Rat.mul Rat.inv Rat.sub in
/-- Claim C8 as amended: `apply_capital_flow` computes the units of a
freshly created flow as `round(round(amount, 2) / nav_per_unit, 8,
HALF_UP)` (negated for redemptions) — deterministically, being a pure
function of its inputs — and for amount 100.00, nav 33.33333333 the
computed units equal 3.00000000. -/
theorem claim_C8_rounding (s : State) (r : FlowRequest) (s' : State)
    (f : CapitalFlow) (nav : Snap)
    (hnone : findFlow s.flows r.fund r.client r.externalRef = none)
    (hnav : getNavForFlowDate s.snaps r.fund r.flowDate r.pricingPolicy
      = .ok nav)
    (h : applyCapitalFlow s r = .ok (s', f)) :
    ((r.flowType = TYPE_SUBSCRIPTION →
        f.unitsDelta = qUnits (qUsd r.amount / nav.navPerUnit)) ∧
      (r.flowType = TYPE_REDEMPTION →
        f.unitsDelta = -qUnits (qUsd r.amount / nav.navPerUnit))) ∧
    qUnits ((100 : ℚ) / nav33) = 3 := by
  constructor
  · obtain ⟨he, ha, hcase⟩ := applyCapitalFlow_ok_inv h
    rcases hcase with ⟨hf, _⟩ | ⟨_, hcreate⟩
    · rw [hnone] at hf
      cases hf
    · obtain ⟨nav', hnav', hn, hdisp⟩ := applyCreate_ok_inv hcreate
      rw [hnav] at hnav'
      have hne : nav = nav' := by
        injection hnav'
      subst hne
      constructor
      · intro hsub
        rcases hdisp with ⟨_, hfin⟩ | ⟨hns, _, _⟩
        · rw [(applyFinish_ok_inv hfin).1]
        · exact absurd hsub hns
      · intro hred
        rcases hdisp with ⟨hsub, _⟩ | ⟨_, _, hfin⟩
        · rw [hred] at hsub
          exact absurd hsub (by decide)
        · rw [(applyFinish_ok_inv hfin).1]
  · decide

unseal Rat.add Rat.mul Rat.inv Rat.sub in
theorem claim_C8_rounding_witness :
    ((subReq100.flowType = TYPE_SUBSCRIPTION →
        (⟨7, 1, TYPE_SUBSCRIPTION, 100, nav33, 3, dJan1,
          "R1"⟩ : CapitalFlow).unitsDelta
          = qUnits (qUsd subReq100.amount / snap33.navPerUnit)) ∧
      (subReq100.flowType = TYPE_REDEMPTION →
        (⟨7, 1, TYPE_SUBSCRIPTION, 100, nav33, 3, dJan1,
          "R1"⟩ : CapitalFlow).unitsDelta
          = -qUnits (qUsd subReq100.amount / snap33.navPerUnit))) ∧
    qUnits ((100 : ℚ) / nav33) = 3 :=
  claim_C8_rounding state33 subReq100
    ⟨[⟨7, 1, TYPE_SUBSCRIPTION, 100, nav33, 3, dJan1, "R1"⟩],
      [⟨7, 1, 3, nav33, dJan1⟩], [snap33], [], []⟩
    ⟨7, 1, TYPE_SUBSCRIPTION, 100, nav33, 3, dJan1, "R1"⟩ snap33
    (by decide) (by rfl) (by rfl)

unseal Rat.add Rat.mul Rat.inv Rat.sub in
/-- Claim C9, counterexample: the NAV computation does not restrict the
broker valuation.  With one unit outstanding (total_units = 1 > 0) and
a broker equity of $0.00, `compute_and_save_navsnapshot` succeeds and
writes a NAVSnapshot with nav_per_unit = 0, violating the claimed
`nav_per_unit > 0 whenever total_units > 0` for arbitrary broker
results. -/
theorem claim_C9_cex :
    ((computeAndSaveNavsnapshot unitState fundA dJan1
        (.ok ⟨0, 0⟩)).toOption.map fun p => p.2.navPerUnit) = some 0 ∧
    0 < fundTotalUnits unitState.accounts fundA.id :=
  ⟨by rfl, by decide⟩

/-- Claim C9 as amended: every NAVSnapshot written by
`compute_and_save_navsnapshot` (for an ACTIVE Alpaca fund) has
nav_per_unit > 0 whenever total_units > 0 **and** the broker equity,
rounded to cents, is at least total_units / (2·10^8) — the threshold at
which aum / total_units still rounds up to a positive 8-decimal-place
value; for smaller equity (e.g. equity = 0) the stored nav_per_unit can
be 0. -/
theorem claim_C9_nav_positive (s : State) (fund : Fund) (asOf : Date)
    (v : BrokerValuation)
    (hc : fund.custodian = CUSTODIAN_ALPACA)
    (hst : fund.status = STATUS_ACTIVE)
    (ht : 0 < fundTotalUnits s.accounts fund.id)
    (he : fundTotalUnits s.accounts fund.id / 200000000 ≤ qUsd v.equity) :
    ∃ s' snap,
      computeAndSaveNavsnapshot s fund asOf (.ok v) = .ok (s', snap) ∧
      0 < snap.navPerUnit := by
  unfold computeAndSaveNavsnapshot
  rw [if_neg (by simp [hc]), if_neg (by simp [hst]),
    if_neg (not_le.mpr ht)]
  refine ⟨_, _, rfl, ?_⟩
  show 0 < qNav (qUsd v.equity / fundTotalUnits s.accounts fund.id)
  unfold qNav
  have h2 : 1/2
      ≤ qUsd v.equity / fundTotalUnits s.accounts fund.id * 100000000 := by
    rw [div_mul_eq_mul_div, le_div_iff₀ ht]
    nlinarith [mul_le_mul_of_nonneg_right he
      (by norm_num : (0:ℚ) ≤ 100000000)]
  have h3 := one_le_rhalfAway h2
  have h4 : (1 : ℚ) ≤ (rhalfAway
      (qUsd v.equity / fundTotalUnits s.accounts fund.id * 100000000) : ℚ) :=
    by exact_mod_cast h3
  exact div_pos (by linarith) (by norm_num)

unseal Rat.add Rat.mul Rat.inv Rat.sub in
theorem claim_C9_nav_positive_witness :
    ∃ s' snap,
      computeAndSaveNavsnapshot unitState fundA dJan1 (.ok ⟨100, 0⟩)
        = .ok (s', snap) ∧
      0 < snap.navPerUnit :=
  claim_C9_nav_positive unitState fundA dJan1 ⟨100, 0⟩ rfl rfl (by decide)
    (by decide)

unseal Rat.add Rat.mul Rat.inv Rat.sub in
/-- Claim C10 (implicit): `apply_capital_flow` quantizes the raw amount
to 2 decimal places HALF_UP before validating it, so the positivity
check applies to the rounded value — a raw amount of 0.004 (> 0) rounds
to 0.00 and fails validation — and every created ledger row stores the
rounded amount, `round(amount, 2, HALF_UP)`, not the raw input. -/
theorem claim_C10_amount_quantized :
    (∀ (s : State) (r : FlowRequest), r.externalRef ≠ "" →
        qUsd r.amount ≤ 0 →
        applyCapitalFlow s r = .error .validation) ∧
    (∀ (s : State) (r : FlowRequest) (s' : State) (f : CapitalFlow),
        findFlow s.flows r.fund r.client r.externalRef = none →
        applyCapitalFlow s r = .ok (s', f) →
        f.amount = qUsd r.amount) ∧
    ((0 : ℚ) < 4/1000 ∧ qUsd (4/1000) = 0 ∧
      applyCapitalFlow baseState
        ⟨7, 1, TYPE_SUBSCRIPTION, dJan1, 4/1000, "R1", "PREV", false⟩
        = .error .validation) := by
  refine ⟨?_, ?_, by decide, by decide, by rfl⟩
  · intro s r he h
    unfold applyCapitalFlow
    rw [if_neg (by simpa using he), if_pos h]
  · intro s r s' f hnone h
    obtain ⟨he, ha, hcase⟩ := applyCapitalFlow_ok_inv h
    rcases hcase with ⟨hf, _⟩ | ⟨_, hcreate⟩
    · rw [hnone] at hf
      cases hf
    · obtain ⟨nav, hnav, hn, hdisp⟩ := applyCreate_ok_inv hcreate
      rcases hdisp with ⟨_, hfin⟩ | ⟨_, _, hfin⟩
      · rw [(applyFinish_ok_inv hfin).1]
      · rw [(applyFinish_ok_inv hfin).1]

unseal Rat.add Rat.mul Rat.inv Rat.sub in
theorem claim_C10_amount_quantized_witness :
    applyCapitalFlow baseState
      ⟨7, 1, TYPE_SUBSCRIPTION, dJan1, 4/1000, "R1", "PREV", false⟩
      = .error .validation :=
  claim_C10_amount_quantized.1 baseState
    ⟨7, 1, TYPE_SUBSCRIPTION, dJan1, 4/1000, "R1", "PREV", false⟩
    (by decide) (by decide)
